import Mathlib

/-!
Shallow embedding of `src/workflow/cli.py` from PlatePals-NutritionChatbot.

The module is a command-line launcher: module-level configuration is read
from environment variables, then `main` branches on four boolean flags and,
for each selected flag, builds a Kubeflow pipeline graph, compiles it to a
yaml manifest, and submits it as a Vertex AI pipeline job.

Side effects (prints, manifest compilation, SDK initialisation and job
submission) are modelled as an explicit trace of `Effect` values; the
`random.choices` source of randomness is modelled as an explicit stream of
natural numbers threaded through the computation (`RandState`).
-/

/-- Environment of the process: a partial map from variable names to values. -/
def Env : Type := String → Option String

/-- Module-level configuration, holding the five values the module reads from
the environment: `GCP_PROJECT`, `GCS_BUCKET_NAME`, `GCS_SERVICE_ACCOUNT`,
`GCS_PACKAGE_URI`, `GCP_REGION` (cli.py lines 18-24). -/
structure Config where
  GCP_PROJECT : String
  GCS_BUCKET_NAME : String
  GCS_SERVICE_ACCOUNT : String
  GCS_PACKAGE_URI : String
  GCP_REGION : String
deriving DecidableEq, Repr

/-- Derived constant `BUCKET_URI = f"gs://{GCS_BUCKET_NAME}"` (cli.py line 20). -/
def Config.BUCKET_URI (c : Config) : String := "gs://" ++ c.GCS_BUCKET_NAME

/-- Derived constant `PIPELINE_ROOT = f"{BUCKET_URI}/pipeline_root/root"` (cli.py line 21). -/
def Config.PIPELINE_ROOT (c : Config) : String := c.BUCKET_URI ++ "/pipeline_root/root"

/-- The environment variables the module reads with `os.environ[...]` at import
time, in source order (cli.py lines 18-24). There are exactly five such reads;
`BUCKET_URI` and `PIPELINE_ROOT` are derived, not read. -/
def requiredEnvVars : List String :=
  ["GCP_PROJECT", "GCS_BUCKET_NAME", "GCS_SERVICE_ACCOUNT", "GCS_PACKAGE_URI", "GCP_REGION"]

/-- Module-level configuration loading (cli.py lines 18-24): the five
`os.environ[...]` lookups in source order; an unset variable raises
`KeyError(name)` (modelled as `Except.error name`), so the first missing
variable aborts the module load with that variable's name. -/
def loadConfig (env : Env) : Except String Config :=
  match env "GCP_PROJECT" with
  | none => Except.error "GCP_PROJECT"
  | some gcp_project =>
  match env "GCS_BUCKET_NAME" with
  | none => Except.error "GCS_BUCKET_NAME"
  | some gcs_bucket_name =>
  match env "GCS_SERVICE_ACCOUNT" with
  | none => Except.error "GCS_SERVICE_ACCOUNT"
  | some gcs_service_account =>
  match env "GCS_PACKAGE_URI" with
  | none => Except.error "GCS_PACKAGE_URI"
  | some gcs_package_uri =>
  match env "GCP_REGION" with
  | none => Except.error "GCP_REGION"
  | some gcp_region =>
  Except.ok ⟨gcp_project, gcs_bucket_name, gcs_service_account, gcs_package_uri, gcp_region⟩

/-- Constant `DATA_PROCESSOR_IMAGE` (cli.py line 28). -/
def DATA_PROCESSOR_IMAGE : String := "amelialwx/preprocess-image"

/-- Python `string.ascii_lowercase`. -/
def ascii_lowercase : String := "abcdefghijklmnopqrstuvwxyz"

/-- Python `string.digits`. -/
def digits : String := "0123456789"

/-- Explicit model of the `random` module's state: an infinite stream of draws
and a position into it. Each draw consumes one stream element. -/
structure RandState where
  stream : Nat → Nat
  pos : Nat

/-- One uniform choice from a non-empty population, as made by `random.choices`:
the next stream element, reduced modulo the population size, indexes the
population. -/
def randChoice (pop : List Char) (s : RandState) : Char × RandState :=
  (pop.getD (s.stream s.pos % pop.length) 'a', ⟨s.stream, s.pos + 1⟩)

/-- Python `random.choices(pop, k=k)`: `k` independent uniform choices with
replacement. -/
def randomChoices (pop : List Char) : Nat → RandState → List Char × RandState
  | 0, s => ([], s)
  | k + 1, s =>
    let c := randChoice pop s
    let rest := randomChoices pop k c.2
    (c.1 :: rest.1, rest.2)

/-- The default value of `generate_uuid`'s `length` parameter (cli.py line 31). -/
def generate_uuid_default_length : Nat := 8

/-- `generate_uuid` (cli.py lines 31-41):
`"".join(random.choices(string.ascii_lowercase + string.digits, k=length))`. -/
def generate_uuid (length : Nat) (s : RandState) : String × RandState :=
  let r := randomChoices (ascii_lowercase ++ digits).toList length s
  (String.mk r.1, r.2)

/-- A `dsl.ContainerSpec` value: image reference, command, argument list. -/
structure ContainerSpec where
  image : String
  command : List String
  args : List String
deriving DecidableEq, Repr

/-- The keyword arguments of one invocation of the imported `model_training`
component. Parameters not passed at the call site are `none`. -/
structure ModelTrainingArgs where
  project : String
  location : String
  staging_bucket : String
  bucket_name : String
  epochs : Nat
  batch_size : Option Nat
  model_name : Option String
  train_base : Option Bool
deriving DecidableEq, Repr

/-- A stage's executable reference: a container component, or one of the two
imported Python-defined components with its invocation arguments. -/
inductive Component where
  | containerComponent (spec : ContainerSpec)
  | modelTraining (a : ModelTrainingArgs)
  | modelDeploy (bucket_name : String)
deriving DecidableEq, Repr

/-- One task (stage node) of a pipeline graph, with its optional
`set_display_name` value. -/
structure PipelineTask where
  component : Component
  display_name : Option String
deriving DecidableEq, Repr

/-- A pipeline graph: the stage nodes in definition order, and the `after`
edges as index pairs `(i, j)` meaning task `i` must complete before task `j`. -/
structure PipelineGraph where
  tasks : List PipelineTask
  edges : List (Nat × Nat)
deriving DecidableEq, Repr

/-- The `data_processor` container component of the standalone data-processor
branch (cli.py lines 58-68): the args list holds only `"cli.py"`; the bucket
argument line is commented out in the source. -/
def data_processor : ContainerSpec :=
  { image := DATA_PROCESSOR_IMAGE, command := [], args := ["cli.py"] }

/-- The `data_processor` container component re-defined inside the
full-pipeline branch (cli.py lines 159-169): here the bucket argument
`f"--bucket {GCS_BUCKET_NAME}"` IS passed. -/
def data_processor_full (cfg : Config) : ContainerSpec :=
  { image := DATA_PROCESSOR_IMAGE, command := [],
    args := ["cli.py", "--bucket " ++ cfg.GCS_BUCKET_NAME] }

/-- `data_processor_pipeline` (cli.py lines 71-73): a single container stage,
no edges. -/
def data_processor_pipeline : PipelineGraph :=
  { tasks := [{ component := Component.containerComponent data_processor, display_name := none }],
    edges := [] }

/-- The `model_training(...)` call of the standalone training branch
(cli.py lines 100-106): epochs fixed to 3; no batch size, model name or
base-layer-training argument is passed. -/
def model_training_standalone_args (cfg : Config) : ModelTrainingArgs :=
  { project := cfg.GCP_PROJECT, location := cfg.GCP_REGION,
    staging_bucket := cfg.GCS_PACKAGE_URI, bucket_name := cfg.GCS_BUCKET_NAME,
    epochs := 3, batch_size := none, model_name := none, train_base := none }

/-- `model_training_pipeline` (cli.py lines 98-106): a single training stage,
no edges. -/
def model_training_pipeline (cfg : Config) : PipelineGraph :=
  { tasks := [{ component := Component.modelTraining (model_training_standalone_args cfg),
                display_name := none }],
    edges := [] }

/-- `model_deploy_pipeline` (cli.py lines 131-135): a single deploy stage,
no edges. -/
def model_deploy_pipeline (cfg : Config) : PipelineGraph :=
  { tasks := [{ component := Component.modelDeploy cfg.GCS_BUCKET_NAME, display_name := none }],
    edges := [] }

/-- The `model_training(...)` call inside `ml_pipeline` (cli.py lines 180-193):
epochs 1, batch size 32, model name "EfficientNetV2B0", base-layer training
disabled. -/
def ml_training_args (cfg : Config) : ModelTrainingArgs :=
  { project := cfg.GCP_PROJECT, location := cfg.GCP_REGION,
    staging_bucket := cfg.GCS_PACKAGE_URI, bucket_name := cfg.GCS_BUCKET_NAME,
    epochs := 1, batch_size := some 32, model_name := some "EfficientNetV2B0",
    train_base := some false }

/-- `ml_pipeline` (cli.py lines 172-201): three stages; training is `.after`
the data processor and deploy is `.after` training, giving the two edges
`(0, 1)` and `(1, 2)`. -/
def ml_pipeline (cfg : Config) : PipelineGraph :=
  { tasks :=
      [{ component := Component.containerComponent (data_processor_full cfg),
         display_name := some "Data Processor" },
       { component := Component.modelTraining (ml_training_args cfg),
         display_name := some "Model Training" },
       { component := Component.modelDeploy cfg.GCS_BUCKET_NAME,
         display_name := some "Model Deploy" }],
    edges := [(0, 1), (1, 2)] }

/-- An `aip.PipelineJob(...)` construction: the four keyword arguments the
source passes (cli.py lines 85-90 and the three analogous sites). -/
structure PipelineJob where
  display_name : String
  template_path : String
  pipeline_root : String
  enable_caching : Bool
deriving DecidableEq, Repr

/-- The four boolean CLI flags of the argparse parser (cli.py lines 227-250). -/
structure Args where
  data_processor : Bool
  model_training : Bool
  model_deploy : Bool
  pipeline : Bool
deriving DecidableEq, Repr

/-- One observable side effect of `main`: a print, a manifest compilation
(`compiler.Compiler().compile`), an `aip.init`, or a job submission
(`aip.PipelineJob(...)` followed by `job.run(service_account=...)`). -/
inductive Effect where
  | printArgs (a : Args)
  | print (msg : String)
  | compile (graph : PipelineGraph) (package_path : String)
  | aipInit (project : String) (staging_bucket : String)
  | submit (job : PipelineJob) (service_account : String)
deriving DecidableEq, Repr

/-- The `args.data_processor` branch of `main` (cli.py lines 54-92). -/
def runDataProcessorBranch (cfg : Config) (s : RandState) : List Effect × RandState :=
  let r := generate_uuid generate_uuid_default_length s
  ([Effect.print "Data Processor",
    Effect.compile data_processor_pipeline "data_processor.yaml",
    Effect.aipInit cfg.GCP_PROJECT cfg.BUCKET_URI,
    Effect.submit
      { display_name := "platepals-data-processor-" ++ r.1,
        template_path := "data_processor.yaml",
        pipeline_root := cfg.PIPELINE_ROOT,
        enable_caching := false }
      cfg.GCS_SERVICE_ACCOUNT],
   r.2)

/-- The `args.model_training` branch of `main` (cli.py lines 94-125). -/
def runModelTrainingBranch (cfg : Config) (s : RandState) : List Effect × RandState :=
  let r := generate_uuid generate_uuid_default_length s
  ([Effect.print "Model Training",
    Effect.compile (model_training_pipeline cfg) "model_training.yaml",
    Effect.aipInit cfg.GCP_PROJECT cfg.BUCKET_URI,
    Effect.submit
      { display_name := "platepals-model-training-" ++ r.1,
        template_path := "model_training.yaml",
        pipeline_root := cfg.PIPELINE_ROOT,
        enable_caching := false }
      cfg.GCS_SERVICE_ACCOUNT],
   r.2)

/-- The `args.model_deploy` branch of `main` (cli.py lines 127-154). -/
def runModelDeployBranch (cfg : Config) (s : RandState) : List Effect × RandState :=
  let r := generate_uuid generate_uuid_default_length s
  ([Effect.print "Model Deploy",
    Effect.compile (model_deploy_pipeline cfg) "model_deploy.yaml",
    Effect.aipInit cfg.GCP_PROJECT cfg.BUCKET_URI,
    Effect.submit
      { display_name := "platepals-app-model-deploy-" ++ r.1,
        template_path := "model_deploy.yaml",
        pipeline_root := cfg.PIPELINE_ROOT,
        enable_caching := false }
      cfg.GCS_SERVICE_ACCOUNT],
   r.2)

/-- The `args.pipeline` branch of `main` (cli.py lines 156-218); this branch
has no leading print statement. -/
def runPipelineBranch (cfg : Config) (s : RandState) : List Effect × RandState :=
  let r := generate_uuid generate_uuid_default_length s
  ([Effect.compile (ml_pipeline cfg) "pipeline.yaml",
    Effect.aipInit cfg.GCP_PROJECT cfg.BUCKET_URI,
    Effect.submit
      { display_name := "platepals-app-pipeline-" ++ r.1,
        template_path := "pipeline.yaml",
        pipeline_root := cfg.PIPELINE_ROOT,
        enable_caching := false }
      cfg.GCS_SERVICE_ACCOUNT],
   r.2)

/-- `main` (cli.py lines 44-218): prints the parsed arguments, then runs each
of the four flag-guarded branches in source order, threading the random
state through the branches that actually execute. -/
def cliMain (cfg : Config) (args : Args) (s : RandState) : List Effect × RandState :=
  let r1 := if args.data_processor then runDataProcessorBranch cfg s else ([], s)
  let r2 := if args.model_training then runModelTrainingBranch cfg r1.2 else ([], r1.2)
  let r3 := if args.model_deploy then runModelDeployBranch cfg r2.2 else ([], r2.2)
  let r4 := if args.pipeline then runPipelineBranch cfg r3.2 else ([], r3.2)
  (Effect.printArgs args :: (r1.1 ++ r2.1 ++ r3.1 ++ r4.1), r4.2)

/-- The argparse surface (cli.py lines 225-252): four independent
`store_true` flags with short and long spellings. -/
def parseArgs (argv : List String) : Args :=
  { data_processor := argv.contains "-p" || argv.contains "--data_processor",
    model_training := argv.contains "-t" || argv.contains "--model_training",
    model_deploy := argv.contains "-d" || argv.contains "--model_deploy",
    pipeline := argv.contains "-w" || argv.contains "--pipeline" }

/-- Outcome of one process invocation: either the module-level configuration
load aborted on a missing variable (before any argument parsing), or the
arguments were parsed and `main` ran, producing an effect trace. -/
inductive ProcessOutcome where
  | configError (missingVar : String)
  | ran (parsed : Args) (effects : List Effect)
deriving Repr

/-- A whole process invocation (cli.py top to bottom): module-level
configuration loading happens first; only if it succeeds are the command-line
arguments parsed and `main` entered. -/
def runProcess (env : Env) (argv : List String) (s : RandState) : ProcessOutcome :=
  match loadConfig env with
  | Except.error name => ProcessOutcome.configError name
  | Except.ok cfg => ProcessOutcome.ran (parseArgs argv) (cliMain cfg (parseArgs argv) s).1

/-- The job submissions of an effect trace, in order, each with its
service account. -/
def submitsOf : List Effect → List (PipelineJob × String)
  | [] => []
  | Effect.submit j sa :: rest => (j, sa) :: submitsOf rest
  | _ :: rest => submitsOf rest

/-- The manifest compilations of an effect trace, in order. -/
def compilesOf : List Effect → List (PipelineGraph × String)
  | [] => []
  | Effect.compile g p :: rest => (g, p) :: compilesOf rest
  | _ :: rest => compilesOf rest

/-- Checks that no two submissions overlap: after a submission (flag set to
`true`), another submission may only occur after an intervening compilation
step, i.e. every submission has returned before the next mode's
compile-and-submit begins. -/
def submitSeparated : Bool → List Effect → Bool
  | _, [] => true
  | pending, Effect.submit _ _ :: rest => !pending && submitSeparated true rest
  | _, Effect.compile _ _ :: rest => submitSeparated false rest
  | pending, _ :: rest => submitSeparated pending rest

/-! ### Helper lemmas about the random identifier generator -/

/-- Indexing a list with a fallback yields a list element or the fallback. -/
theorem getD_mem_or_eq (l : List Char) (i : Nat) (d : Char) :
    l.getD i d ∈ l ∨ l.getD i d = d := by
  induction l generalizing i with
  | nil => right; simp [List.getD]
  | cons a t ih =>
    cases i with
    | zero => left; simp [List.getD]
    | succ j =>
      rcases ih j with h | h
      · left
        simp [List.getD] at h ⊢
        right; exact h
      · right; simpa [List.getD] using h

/-- A single `random.choices` draw returns an element of the population
whenever the fallback character is itself in the population. -/
theorem randChoice_fst_mem (pop : List Char) (hd : 'a' ∈ pop) (s : RandState) :
    (randChoice pop s).1 ∈ pop := by
  show pop.getD (s.stream s.pos % pop.length) 'a' ∈ pop
  rcases getD_mem_or_eq pop (s.stream s.pos % pop.length) 'a' with h | h
  · exact h
  · rw [h]; exact hd

/-- `random.choices` returns exactly `k` characters. -/
theorem randomChoices_fst_length (pop : List Char) (k : Nat) (s : RandState) :
    (randomChoices pop k s).1.length = k := by
  induction k generalizing s with
  | zero => rfl
  | succ n ih => simp [randomChoices, ih]

/-- Every character returned by `random.choices` comes from the population
(whenever the fallback character is itself in the population). -/
theorem randomChoices_fst_mem (pop : List Char) (hd : 'a' ∈ pop) (k : Nat) (s : RandState) :
    ∀ c ∈ (randomChoices pop k s).1, c ∈ pop := by
  induction k generalizing s with
  | zero => intro c hc; simp [randomChoices] at hc
  | succ n ih =>
    intro c hc
    simp only [randomChoices, List.mem_cons] at hc
    rcases hc with rfl | hc
    · exact randChoice_fst_mem pop hd s
    · exact ih _ c hc

/-- The alphabet `string.ascii_lowercase + string.digits` contains `'a'`. -/
theorem a_mem_alphabet : 'a' ∈ (ascii_lowercase ++ digits).toList := by decide

/-- The string returned by `generate_uuid` has exactly the requested length. -/
theorem generate_uuid_fst_length (n : Nat) (s : RandState) :
    (generate_uuid n s).1.length = n := by
  have h := randomChoices_fst_length (ascii_lowercase ++ digits).toList n s
  simpa [generate_uuid] using h

/-- Every character of the string returned by `generate_uuid` is a lowercase
ASCII letter or a decimal digit. -/
theorem generate_uuid_fst_all (n : Nat) (s : RandState) :
    ((generate_uuid n s).1.toList.all
      (fun c => (ascii_lowercase ++ digits).toList.contains c)) = true := by
  simp only [generate_uuid, List.all_eq_true]
  intro c hc
  have hmem : c ∈ (randomChoices (ascii_lowercase ++ digits).toList n s).1 := by
    simpa using hc
  exact List.elem_eq_true_of_mem
    (randomChoices_fst_mem (ascii_lowercase ++ digits).toList a_mem_alphabet n s c hmem)

/-! ### The claims -/

/-- Claim C4: for every requested length `n` and every random state,
`generate_uuid` returns a string of length exactly `n` whose characters are
all drawn from the lowercase ASCII letters and the decimal digits; the
default length is 8. -/
theorem C4_generate_uuid_spec (n : Nat) (s : RandState) :
    (generate_uuid n s).1.length = n
    ∧ ((generate_uuid n s).1.toList.all
        (fun c => (ascii_lowercase ++ digits).toList.contains c)) = true
    ∧ generate_uuid_default_length = 8 :=
  ⟨generate_uuid_fst_length n s, generate_uuid_fst_all n s, rfl⟩

/-- Claim C1: with exactly one of the four flags set, the constructed (and
compiled) pipeline graph has exactly 1 stage in data-processor-only,
model-training-only and model-deploy-only modes, and exactly 3 stages in
full-pipeline mode with exactly the two sequencing edges
data-processor before model-training before model-deploy. -/
theorem C1_single_flag_stage_counts (cfg : Config) (s : RandState) :
    (compilesOf (cliMain cfg ⟨true, false, false, false⟩ s).1
        = [(data_processor_pipeline, "data_processor.yaml")]
      ∧ data_processor_pipeline.tasks.length = 1
      ∧ data_processor_pipeline.edges = [])
    ∧ (compilesOf (cliMain cfg ⟨false, true, false, false⟩ s).1
        = [(model_training_pipeline cfg, "model_training.yaml")]
      ∧ (model_training_pipeline cfg).tasks.length = 1
      ∧ (model_training_pipeline cfg).edges = [])
    ∧ (compilesOf (cliMain cfg ⟨false, false, true, false⟩ s).1
        = [(model_deploy_pipeline cfg, "model_deploy.yaml")]
      ∧ (model_deploy_pipeline cfg).tasks.length = 1
      ∧ (model_deploy_pipeline cfg).edges = [])
    ∧ (compilesOf (cliMain cfg ⟨false, false, false, true⟩ s).1
        = [(ml_pipeline cfg, "pipeline.yaml")]
      ∧ (ml_pipeline cfg).tasks.length = 3
      ∧ (ml_pipeline cfg).edges = [(0, 1), (1, 2)]
      ∧ (ml_pipeline cfg).tasks.map PipelineTask.component
          = [Component.containerComponent (data_processor_full cfg),
             Component.modelTraining (ml_training_args cfg),
             Component.modelDeploy cfg.GCS_BUCKET_NAME]) :=
  ⟨⟨rfl, rfl, rfl⟩, ⟨rfl, rfl, rfl⟩, ⟨rfl, rfl, rfl⟩, ⟨rfl, rfl, rfl, rfl⟩⟩

/-- Claim C2: the training stage's parameters differ between the two modes in
which it appears: standalone training fixes epochs to 3 and passes no batch
size, model architecture or base-layer-training argument, whereas the full
pipeline fixes epochs 1, batch size 32, model name "EfficientNetV2B0" and
disabled base-layer training; the two configurations are never equal. -/
theorem C2_training_configs_differ (cfg : Config) :
    (model_training_standalone_args cfg).epochs = 3
    ∧ (model_training_standalone_args cfg).batch_size = none
    ∧ (model_training_standalone_args cfg).model_name = none
    ∧ (model_training_standalone_args cfg).train_base = none
    ∧ (ml_training_args cfg).epochs = 1
    ∧ (ml_training_args cfg).batch_size = some 32
    ∧ (ml_training_args cfg).model_name = some "EfficientNetV2B0"
    ∧ (ml_training_args cfg).train_base = some false
    ∧ model_training_standalone_args cfg ≠ ml_training_args cfg := by
  refine ⟨rfl, rfl, rfl, rfl, rfl, rfl, rfl, rfl, ?_⟩
  intro h
  have h3 := congrArg ModelTrainingArgs.epochs h
  simp [model_training_standalone_args, ml_training_args] at h3

/-- Claim C5: in each of the four modes, the submitted job's display name is
the literal prefix `platepals-<stage-label>-` for that mode followed by an
8-character lowercase-alphanumeric suffix. -/
theorem C5_display_name_patterns (cfg : Config) (s : RandState) :
    (∃ suffix, suffix.length = 8
      ∧ (suffix.toList.all (fun c => (ascii_lowercase ++ digits).toList.contains c)) = true
      ∧ (submitsOf (cliMain cfg ⟨true, false, false, false⟩ s).1).map
            (fun p => p.1.display_name)
          = ["platepals-" ++ "data-processor" ++ ("-" ++ suffix)])
    ∧ (∃ suffix, suffix.length = 8
      ∧ (suffix.toList.all (fun c => (ascii_lowercase ++ digits).toList.contains c)) = true
      ∧ (submitsOf (cliMain cfg ⟨false, true, false, false⟩ s).1).map
            (fun p => p.1.display_name)
          = ["platepals-" ++ "model-training" ++ ("-" ++ suffix)])
    ∧ (∃ suffix, suffix.length = 8
      ∧ (suffix.toList.all (fun c => (ascii_lowercase ++ digits).toList.contains c)) = true
      ∧ (submitsOf (cliMain cfg ⟨false, false, true, false⟩ s).1).map
            (fun p => p.1.display_name)
          = ["platepals-" ++ "app-model-deploy" ++ ("-" ++ suffix)])
    ∧ (∃ suffix, suffix.length = 8
      ∧ (suffix.toList.all (fun c => (ascii_lowercase ++ digits).toList.contains c)) = true
      ∧ (submitsOf (cliMain cfg ⟨false, false, false, true⟩ s).1).map
            (fun p => p.1.display_name)
          = ["platepals-" ++ "app-pipeline" ++ ("-" ++ suffix)]) :=
  ⟨⟨(generate_uuid generate_uuid_default_length s).1,
      generate_uuid_fst_length generate_uuid_default_length s,
      generate_uuid_fst_all generate_uuid_default_length s, rfl⟩,
   ⟨(generate_uuid generate_uuid_default_length s).1,
      generate_uuid_fst_length generate_uuid_default_length s,
      generate_uuid_fst_all generate_uuid_default_length s, rfl⟩,
   ⟨(generate_uuid generate_uuid_default_length s).1,
      generate_uuid_fst_length generate_uuid_default_length s,
      generate_uuid_fst_all generate_uuid_default_length s, rfl⟩,
   ⟨(generate_uuid generate_uuid_default_length s).1,
      generate_uuid_fst_length generate_uuid_default_length s,
      generate_uuid_fst_all generate_uuid_default_length s, rfl⟩⟩

/-- Claim C6: every job submission constructed by any of the four modes (in
any combination of flags) has caching disabled. -/
theorem C6_caching_disabled (cfg : Config) (args : Args) (s : RandState) :
    ((submitsOf (cliMain cfg args s).1).all
      (fun p => p.1.enable_caching == false)) = true := by
  obtain ⟨dp, mt, md, pl⟩ := args
  cases dp <;> cases mt <;> cases md <;> cases pl <;>
    simp [cliMain, runDataProcessorBranch, runModelTrainingBranch,
          runModelDeployBranch, runPipelineBranch, submitsOf]

/-- Claim C7: in data-processor-only mode the container stage's argument list
is just `["cli.py"]` (no bucket argument), while in full-pipeline mode the
container stage's argument list does include the bucket argument derived from
the configured bucket name; the two stage definitions are never
argument-equivalent. -/
theorem C7_data_processor_args_differ (cfg : Config) :
    data_processor.args = ["cli.py"]
    ∧ (data_processor_full cfg).args = ["cli.py", "--bucket " ++ cfg.GCS_BUCKET_NAME]
    ∧ data_processor.args ≠ (data_processor_full cfg).args
    ∧ data_processor ≠ data_processor_full cfg := by
  refine ⟨rfl, rfl, ?_, ?_⟩
  · intro h
    have hl := congrArg List.length h
    simp [data_processor, data_processor_full] at hl
  · intro h
    have hl := congrArg (fun c => c.args.length) h
    simp [data_processor, data_processor_full] at hl

/-- Claim C8: when several flags are set in one invocation, the submissions
happen strictly sequentially in the fixed order data-processor,
model-training, model-deploy, full-pipeline: the submitted manifests appear
in exactly that order, and between any two submissions the trace contains the
later mode's compile step, so each mode's compile-and-submit completes before
the next selected mode begins and no two submissions are in flight at once. -/
theorem C8_sequential_submission (cfg : Config) (args : Args) (s : RandState) :
    ((submitsOf (cliMain cfg args s).1).map (fun p => p.1.template_path)
      = (if args.data_processor then ["data_processor.yaml"] else [])
        ++ (if args.model_training then ["model_training.yaml"] else [])
        ++ (if args.model_deploy then ["model_deploy.yaml"] else [])
        ++ (if args.pipeline then ["pipeline.yaml"] else []))
    ∧ submitSeparated false (cliMain cfg args s).1 = true := by
  obtain ⟨dp, mt, md, pl⟩ := args
  cases dp <;> cases mt <;> cases md <;> cases pl <;>
    exact ⟨rfl, rfl⟩

/-- Claim C9 (frame effect): with none of the four flags set, `main` only
prints the parsed arguments: it performs no compilation, no SDK
initialisation and no submission, and consumes no randomness. -/
theorem C9_no_flags_no_effects (cfg : Config) (s : RandState) :
    cliMain cfg ⟨false, false, false, false⟩ s
      = ([Effect.printArgs ⟨false, false, false, false⟩], s)
    ∧ compilesOf (cliMain cfg ⟨false, false, false, false⟩ s).1 = []
    ∧ submitsOf (cliMain cfg ⟨false, false, false, false⟩ s).1 = [] :=
  ⟨rfl, rfl, rfl⟩

/-- Claim C10 (invariant): every job submitted by any combination of the four
modes uses pipeline root `"gs://" ++ bucket ++ "/pipeline_root/root"` and the
configured service account, independently of which flags are selected. -/
theorem C10_pipeline_root_and_service_account (cfg : Config) (args : Args) (s : RandState) :
    cfg.PIPELINE_ROOT = "gs://" ++ cfg.GCS_BUCKET_NAME ++ "/pipeline_root/root"
    ∧ ((submitsOf (cliMain cfg args s).1).all
        (fun p => p.1.pipeline_root == cfg.PIPELINE_ROOT
          && p.2 == cfg.GCS_SERVICE_ACCOUNT)) = true := by
  refine ⟨rfl, ?_⟩
  obtain ⟨dp, mt, md, pl⟩ := args
  cases dp <;> cases mt <;> cases md <;> cases pl <;>
    simp [cliMain, runDataProcessorBranch, runModelTrainingBranch,
          runModelDeployBranch, runPipelineBranch, submitsOf]

/-- An environment that sets exactly the five variables the module reads. -/
def envAllFive : Env := fun name =>
  if requiredEnvVars.contains name then some ("value-of-" ++ name) else none

/-- The empty environment: every variable is unset. -/
def envNone : Env := fun _ => none

/-- A concrete random state for witnesses. -/
def rand0 : RandState := ⟨fun _ => 0, 0⟩

/-- Claim C3 counterexample: the module reads exactly FIVE environment
variables with `os.environ[...]`, not six; an environment that sets only
those five makes configuration loading succeed, so there is no sixth
required variable whose absence could abort the process. -/
theorem C3_counterexample :
    requiredEnvVars.length = 5
    ∧ requiredEnvVars.length ≠ 6
    ∧ (∃ cfg, loadConfig envAllFive = Except.ok cfg) :=
  ⟨rfl, by decide,
   ⟨⟨"value-of-GCP_PROJECT", "value-of-GCS_BUCKET_NAME", "value-of-GCS_SERVICE_ACCOUNT",
     "value-of-GCS_PACKAGE_URI", "value-of-GCP_REGION"⟩, rfl⟩⟩

/-- Claim C3 (amended: five required environment variables, not six): if any
of the five variables the module reads is unset, the process aborts during
module-level configuration loading with that variable's name and argument
parsing is never reached; if all five are set, configuration loading
succeeds and execution proceeds to argument parsing and `main`. -/
theorem C3_env_gating (env : Env) (argv : List String) (s : RandState) :
    ((∃ v ∈ requiredEnvVars, env v = none) →
      ∃ m ∈ requiredEnvVars, runProcess env argv s = ProcessOutcome.configError m)
    ∧ ((∀ v ∈ requiredEnvVars, (env v).isSome) →
      ∃ cfg, loadConfig env = Except.ok cfg
        ∧ runProcess env argv s
            = ProcessOutcome.ran (parseArgs argv) (cliMain cfg (parseArgs argv) s).1) := by
  constructor
  · rintro ⟨v, hv, hnone⟩
    cases h1 : env "GCP_PROJECT" with
    | none =>
      exact ⟨"GCP_PROJECT", by decide, by simp [runProcess, loadConfig, h1]⟩
    | some p =>
      cases h2 : env "GCS_BUCKET_NAME" with
      | none =>
        exact ⟨"GCS_BUCKET_NAME", by decide, by simp [runProcess, loadConfig, h1, h2]⟩
      | some b =>
        cases h3 : env "GCS_SERVICE_ACCOUNT" with
        | none =>
          exact ⟨"GCS_SERVICE_ACCOUNT", by decide,
            by simp [runProcess, loadConfig, h1, h2, h3]⟩
        | some sa =>
          cases h4 : env "GCS_PACKAGE_URI" with
          | none =>
            exact ⟨"GCS_PACKAGE_URI", by decide,
              by simp [runProcess, loadConfig, h1, h2, h3, h4]⟩
          | some pu =>
            cases h5 : env "GCP_REGION" with
            | none =>
              exact ⟨"GCP_REGION", by decide,
                by simp [runProcess, loadConfig, h1, h2, h3, h4, h5]⟩
            | some r =>
              exfalso
              simp only [requiredEnvVars, List.mem_cons, List.not_mem_nil, or_false] at hv
              rcases hv with rfl | rfl | rfl | rfl | rfl <;> simp_all
  · intro h
    have h1 := h "GCP_PROJECT" (by decide)
    have h2 := h "GCS_BUCKET_NAME" (by decide)
    have h3 := h "GCS_SERVICE_ACCOUNT" (by decide)
    have h4 := h "GCS_PACKAGE_URI" (by decide)
    have h5 := h "GCP_REGION" (by decide)
    rcases Option.isSome_iff_exists.mp h1 with ⟨p, hp⟩
    rcases Option.isSome_iff_exists.mp h2 with ⟨b, hb⟩
    rcases Option.isSome_iff_exists.mp h3 with ⟨sa, hsa⟩
    rcases Option.isSome_iff_exists.mp h4 with ⟨pu, hpu⟩
    rcases Option.isSome_iff_exists.mp h5 with ⟨r, hr⟩
    exact ⟨⟨p, b, sa, pu, r⟩,
      by simp [loadConfig, hp, hb, hsa, hpu, hr],
      by simp [runProcess, loadConfig, hp, hb, hsa, hpu, hr]⟩

/-- Witness for `C3_env_gating` at concrete inputs: with the empty
environment the process aborts during configuration loading; with the five
variables set it reaches argument parsing and `main`. -/
theorem C3_env_gating_witness :
    (∃ m ∈ requiredEnvVars, runProcess envNone ["-p"] rand0 = ProcessOutcome.configError m)
    ∧ (∃ cfg, loadConfig envAllFive = Except.ok cfg
        ∧ runProcess envAllFive ["-p"] rand0
            = ProcessOutcome.ran (parseArgs ["-p"]) (cliMain cfg (parseArgs ["-p"]) rand0).1) :=
  ⟨(C3_env_gating envNone ["-p"] rand0).1 ⟨"GCP_PROJECT", by decide, rfl⟩,
   (C3_env_gating envAllFive ["-p"] rand0).2 (by decide)⟩
